import Mathlib

/-!
Verification of the nav2_bringup tb4 launch scripts
(`tb4_simulation_launch.py` and `tb4_loopback_simulation_launch.py`)
against their natural-language specification.

The repository's own code is the two launch scripts; the launch
orchestration engine they are interpreted by (substitution resolution,
conditional actions, group scoping, session includes, shutdown hooks)
is an external collaborator that is not part of the source tree, so the
engine semantics below are modelled from the specification, while the
two concrete action lists are translated directly from the two source
files.
-/

namespace NavLaunch

/-- Errors of the resolution engine.  Modelled from the spec:
the error taxonomy of the launch engine (section 7), which is not part
of the source tree. -/
inductive LaunchError where
  | unresolvedVariable : String → LaunchError
  | invalidGuard : LaunchError
  | templateNotFound : LaunchError
  | malformedTemplate : LaunchError
  | sessionNotFound : LaunchError
deriving DecidableEq, Repr

/-- Substitution expressions, as used by the two launch scripts:
string literals, `LaunchConfiguration` references (with and without an
inline default), concatenation of two substitutions, and the
`PythonExpression([a, ' and not ', b])` guard used for the gazebo
client. -/
inductive Subst where
  | lit : String → Subst
  | config : String → Subst
  | configD : String → String → Subst
  | cat2 : Subst → Subst → Subst
  | andNot : Subst → Subst → Subst
deriving DecidableEq, Repr

/-- Runtime context: launch-configuration variables plus the scoped
`SetParameter` overrides.  Modelled from the spec: the Runtime Context
of the engine (section 3), which is not part of the source tree. -/
structure Ctx where
  vars : List (String × String)
  params : List (String × String)
deriving DecidableEq, Repr

/-- Boolean text accepted by `IfCondition` / `LaunchConfigAsBool`.
Modelled from the spec: guard evaluation of the Conditional Action
Node (section 4.2); non-boolean text is not coerced. -/
def parseBoolText (s : String) : Option Bool :=
  if s = "true" ∨ s = "True" ∨ s = "1" then some true
  else if s = "false" ∨ s = "False" ∨ s = "0" then some false
  else none

/-- Python-style rendering of a boolean, as produced by
`PythonExpression`. -/
def pyBoolStr (b : Bool) : String := if b then "True" else "False"

/-- Substitution resolution.  Modelled from the spec: the lazy
Substitution Resolver (section 4.1) of the engine, which is not part of
the source tree. -/
def resolve : Subst → Ctx → Except LaunchError String
  | .lit s, _ => .ok s
  | .config n, c =>
      match List.lookup n c.vars with
      | some v => .ok v
      | none => .error (.unresolvedVariable n)
  | .configD n d, c => .ok ((List.lookup n c.vars).getD d)
  | .cat2 a b, c =>
      match resolve a c with
      | .error e => .error e
      | .ok x =>
          match resolve b c with
          | .error e => .error e
          | .ok y => .ok (x ++ y)
  | .andNot a b, c =>
      match resolve a c with
      | .error e => .error e
      | .ok x =>
          match resolve b c with
          | .error e => .error e
          | .ok y =>
              match parseBoolText x, parseBoolText y with
              | some bx, some bz => .ok (pyBoolStr (bx && !bz))
              | _, _ => .error .invalidGuard

/-- Guard evaluation.  Modelled from the spec: the Conditional Action
Node (section 4.2); an absent guard defaults to true and non-boolean
guard text is an `InvalidGuardError`. -/
def evalGuard : Option Subst → Ctx → Except LaunchError Bool
  | none, _ => .ok true
  | some g, c =>
      match resolve g c with
      | .error e => .error e
      | .ok s =>
          match parseBoolText s with
          | some b => .ok b
          | none => .error .invalidGuard

/-- Resolve every element of a command line. -/
def resolveCmd : List Subst → Ctx → Except LaunchError (List String)
  | [], _ => .ok []
  | s :: rest, c =>
      match resolve s c with
      | .error e => .error e
      | .ok x =>
          match resolveCmd rest c with
          | .error e => .error e
          | .ok xs => .ok (x :: xs)

/-- Resolve the value of every entry of an include's argument map. -/
def resolveArgList : List (String × Subst) → Ctx → Except LaunchError (List (String × String))
  | [], _ => .ok []
  | (k, s) :: rest, c =>
      match resolve s c with
      | .error e => .error e
      | .ok x =>
          match resolveArgList rest c with
          | .error e => .error e
          | .ok xs => .ok ((k, x) :: xs)

/-- A registered shutdown hook.  The only hook in the source deletes
the temporary world SDF file (`os.remove`). -/
inductive Hook where
  | removeFile : String → Hook
deriving DecidableEq, Repr, BEq

/-- Parameter values appearing in a Node's parameter dictionaries:
plain substitutions, hardcoded Python booleans, `Command(...)`
invocations (resolved by the consuming process, never by a guard) and
string lists. -/
inductive PValue where
  | pstr : Subst → PValue
  | pbool : Bool → PValue
  | pcmd : Subst → PValue
  | plist : List String → PValue
deriving DecidableEq, Repr

/-- A declarative parameter source, as built by `RewrittenYaml` in the
loopback script: template path, namespace root key, rewrite map and the
type-conversion flag. -/
structure RewrittenYamlSrc where
  source_file : Subst
  root_key : Subst
  param_rewrites : List (String × Subst)
  convert_types : Bool
deriving DecidableEq, Repr

/-- One entry of a Node's `parameters=[...]` list: either an inline
dictionary or a `ParameterFile` wrapping a rewritten-YAML source. -/
inductive ParamEntry where
  | dict : List (String × PValue) → ParamEntry
  | file : RewrittenYamlSrc → Bool → ParamEntry
deriving DecidableEq, Repr

/-- A `launch_ros` Node description, with the fields the two scripts
use. -/
structure NodeSpec where
  pkg : String
  exe : String
  name : Option String
  ns : Option Subst
  output : Option String
  params : List ParamEntry
  remaps : List (String × String)
  args : List String
  respawn : Option Subst
  respawnDelay : Option String
deriving DecidableEq, Repr

/-- The action language of the two launch scripts: argument
declarations, nodes, plain processes, the xacro transform producing a
derived artifact file, session includes, groups, scoped parameter
overrides, shutdown-hook registration and environment appends. -/
inductive Action where
  | declareArg : String → String → String → Action
  | node : Option Subst → NodeSpec → Action
  | proc : Option Subst → List Subst → Option String → Action
  | transform : Option Subst → List Subst → String → Action
  | includeA : Option Subst → String → List (String × Subst) → Action
  | group : Option Subst → List Action → Action
  | setParam : Option Subst → String → String → Action
  | onShutdownHook : Option Subst → Hook → Action
  | appendEnvVar : Option Subst → String → String → Action

/-- The guard expression carried by an action (none means
unconditional). -/
def Action.guard : Action → Option Subst
  | .declareArg _ _ _ => none
  | .node g _ => g
  | .proc g _ _ => g
  | .transform g _ _ => g
  | .includeA g _ _ => g
  | .group g _ => g
  | .setParam g _ _ => g
  | .onShutdownHook g _ => g
  | .appendEnvVar g _ _ => g

/-- Observable effects of resolution: spawned nodes (with the scoped
parameter overrides visible to them), spawned plain processes, created
artifact files, included sub-sessions (with the child's seeded argument
map) and environment-variable appends. -/
inductive Effect where
  | spawnNode : String → String → Option String → List (String × String) → Effect
  | spawnProcess : List String → Effect
  | createFile : String → Effect
  | includeSession : String → List (String × String) → Effect
  | appendEnv : String → String → Effect
deriving DecidableEq, Repr, BEq

/-- Resolution state: the runtime context, the set of existing derived
artifact files, the registered shutdown hooks in registration order and
the effect trace. -/
structure St where
  ctx : Ctx
  fs : List String
  hooks : List Hook
  effects : List Effect
deriving DecidableEq, Repr

/-- Guard handling shared by every action variant.  Modelled from the
spec: the Conditional Action Node (section 4.2) — the guard is
evaluated first, a false guard skips the action with no side effect,
and a guard error aborts with the state unchanged. -/
def guardThen (g : Option Subst) (st : St) (body : St × Option LaunchError) :
    St × Option LaunchError :=
  match evalGuard g st.ctx with
  | .error e => (st, some e)
  | .ok false => (st, none)
  | .ok true => body

mutual

/-- Resolution of a single action.  Modelled from the spec: the
engine's resolution walk (sections 4.2, 4.4, 4.5, 4.7, 4.8), which is
not part of the source tree.  Groups push a child context and pop it
before returning; an error aborts with the state accumulated so
far. -/
def resolveAction : Action → St → St × Option LaunchError
  | .declareArg n d _, st =>
      guardThen none st
        (if (List.lookup n st.ctx.vars).isNone then
          ({ st with ctx := { st.ctx with vars := (n, d) :: st.ctx.vars } }, none)
        else (st, none))
  | .node g sp, st =>
      guardThen g st
        ({ st with effects := st.effects ++ [.spawnNode sp.pkg sp.exe sp.name st.ctx.params] },
         none)
  | .proc g cmd _, st =>
      guardThen g st
        (match resolveCmd cmd st.ctx with
         | .ok c => ({ st with effects := st.effects ++ [.spawnProcess c] }, none)
         | .error e => (st, some e))
  | .transform g cmd out, st =>
      guardThen g st
        (match resolveCmd cmd st.ctx with
         | .ok c =>
             ({ st with effects := st.effects ++ [.spawnProcess c, .createFile out],
                        fs := st.fs ++ [out] }, none)
         | .error e => (st, some e))
  | .includeA g path args, st =>
      guardThen g st
        (match resolveArgList args st.ctx with
         | .ok as => ({ st with effects := st.effects ++ [.includeSession path as] }, none)
         | .error e => (st, some e))
  | .group g acts, st =>
      guardThen g st
        (let r := resolveList acts st
         ({ r.1 with ctx := st.ctx }, r.2))
  | .setParam g k v, st =>
      guardThen g st
        ({ st with ctx := { st.ctx with params := (k, v) :: st.ctx.params } }, none)
  | .onShutdownHook g h, st =>
      guardThen g st ({ st with hooks := st.hooks ++ [h] }, none)
  | .appendEnvVar g n v, st =>
      guardThen g st ({ st with effects := st.effects ++ [.appendEnv n v] }, none)

/-- Sequential resolution of an action list, stopping at the first
error but keeping the state accumulated so far. -/
def resolveList : List Action → St → St × Option LaunchError
  | [], st => (st, none)
  | a :: rest, st =>
      match resolveAction a st with
      | (st', none) => resolveList rest st'
      | (st', some e) => (st', some e)

end

/-- Running one shutdown hook against the file system: `os.remove`
succeeds when the file exists and fails (raises) when it does not. -/
def runHook : Hook → List String → List String × Bool
  | .removeFile p, fs => if p ∈ fs then (fs.erase p, true) else (fs, false)

/-- Running a list of hooks in order.  Modelled from the spec: the
shutdown sequence (sections 5 and 7); a failing hook is logged (the
failure counter) and does not prevent later hooks from running.
Returns the final file system, the hooks that actually fired in firing
order, and the number of logged cleanup failures. -/
def runHooks : List Hook → List String → List String × List Hook × Nat
  | [], fs => (fs, [], 0)
  | h :: rest, fs =>
      let r := runHook h fs
      let rec' := runHooks rest r.1
      (rec'.1, h :: rec'.2.1, rec'.2.2 + (if r.2 then 0 else 1))

/-- How a session ends: normal completion, or an external interrupt
after `k` top-level actions have resolved.  A resolution-time error
abort arises from the action list itself (an action returning an
error). -/
inductive Termination where
  | normal : Termination
  | interrupted : Nat → Termination
deriving DecidableEq, Repr

/-- Outcome of a whole session run: final file system, hooks fired (in
firing order), logged cleanup failures, effect trace, and whether the
run aborted on a resolution error. -/
structure RunResult where
  fs : List String
  fired : List Hook
  failures : Nat
  effects : List Effect
  aborted : Bool
deriving DecidableEq, Repr

/-- Initial state of a session run: the CLI overrides are the initial
variable bindings. -/
def initSt (cli : List (String × String)) : St := ⟨⟨cli, []⟩, [], [], []⟩

/-- The portion of the action list a terminating run resolves: all of
it on normal completion, a prefix when interrupted after `k` top-level
actions. -/
def sessionActs (acts : List Action) : Termination → List Action
  | .normal => acts
  | .interrupted k => acts.take k

/-- A complete session run.  Modelled from the spec: the Session Root
walk plus the shutdown sequence (sections 4.8 and 5): resolution walks
the action list in order (all of it, or a prefix when interrupted, or
up to the first resolution error), then the registered cleanup hooks
run in reverse registration order on every termination path. -/
def runSession (acts : List Action) (cli : List (String × String)) (t : Termination) :
    RunResult :=
  let r := resolveList (sessionActs acts t) (initSt cli)
  let s := runHooks r.1.hooks.reverse r.1.fs
  ⟨s.1, s.2.1, s.2.2, r.1.effects, r.2.isSome⟩

/-- Modelled from the spec: the ament package index lookup used by both
scripts is an external collaborator; the share directory of a package
is an opaque absolute path determined by the package name. -/
def get_package_share_directory (pkg : String) : String :=
  "/opt/ros/share/" ++ pkg

/-- Filesystem path concatenation (`os.path.join`). -/
def path_join (a b : String) : String := a ++ "/" ++ b

/-- Modelled from the spec: `tempfile.mktemp` hands out a fresh
temporary path with the given prefix and suffix; the concrete name is
opaque. -/
def tempfile_mktemp (pre suf : String) : String := "/tmp/" ++ pre ++ "00000000" ++ suf

/-- Structural YAML trees, the parse result of a materialized
parameter artifact. -/
inductive Yaml where
  | ystr : String → Yaml
  | yint : Int → Yaml
  | ybool : Bool → Yaml
  | ymap : List (String × Yaml) → Yaml

/-- Type conversion of a scalar: numeric and boolean text is coerced
to its inferred type.  Modelled from the spec: the `convert_types` flag
of the Parameter Materializer (section 4.3); the materializer itself
lives outside the source tree. -/
def convertScalar (s : String) : Yaml :=
  match s.toInt? with
  | some n => .yint n
  | none =>
      if s = "true" ∨ s = "True" then .ybool true
      else if s = "false" ∨ s = "False" then .ybool false
      else .ystr s

mutual

/-- Recursive type conversion over a YAML tree. -/
def convertTypes : Yaml → Yaml
  | .ystr s => convertScalar s
  | .yint n => .yint n
  | .ybool b => .ybool b
  | .ymap kvs => .ymap (convertTypesList kvs)

/-- Recursive type conversion over the entries of a YAML mapping. -/
def convertTypesList : List (String × Yaml) → List (String × Yaml)
  | [] => []
  | (k, v) :: rest => (k, convertTypes v) :: convertTypesList rest

end

/-- Override one top-level key of a YAML mapping, creating it when
absent. -/
def setKey (kvs : List (String × Yaml)) (k : String) (v : Yaml) : List (String × Yaml) :=
  match kvs with
  | [] => [(k, v)]
  | (k', v') :: rest => if k' = k then (k, v) :: rest else (k', v') :: setKey rest k v

/-- Apply a resolved rewrite map to the template's top level.
Modelled from the spec: the rewrite step of the Parameter Materializer
(section 4.3). -/
def applyRewrites (rw : List (String × String)) (y : Yaml) : Yaml :=
  match y with
  | .ymap kvs => .ymap (rw.foldl (fun acc kv => setKey acc kv.1 (.ystr kv.2)) kvs)
  | other => other

/-- Nest the rewritten content under the root key when it is
nonempty. -/
def nestRoot (root : String) (y : Yaml) : Yaml :=
  if root = "" then y else .ymap [(root, y)]

/-- The fresh temporary path handed out for the n-th materialization
of a run. -/
def tempArtifactPath (n : Nat) : String := "/tmp/launch_params_" ++ toString n ++ ".yaml"

/-- Content of a materialized parameter artifact.  Modelled from the
spec: the Parameter Materializer contract (section 4.3) — resolve the
template path, read the template, apply the rewrites, convert types
when requested, nest under the root key; the implementation
(`RewrittenYaml`) is not part of the source tree. -/
def materializeContent (src : RewrittenYamlSrc) (c : Ctx) (readFile : String → Option Yaml) :
    Except LaunchError Yaml :=
  match resolve src.source_file c with
  | .error e => .error e
  | .ok p =>
      match readFile p with
      | none => .error .templateNotFound
      | some tpl =>
          match resolveArgList src.param_rewrites c with
          | .error e => .error e
          | .ok rw =>
              let rewritten := applyRewrites rw tpl
              let conv := if src.convert_types then convertTypes rewritten else rewritten
              match resolve src.root_key c with
              | .error e => .error e
              | .ok root => .ok (nestRoot root conv)

/-- A full materialization: the artifact is the fresh temporary path
together with its structural content. -/
def materialize (src : RewrittenYamlSrc) (c : Ctx) (readFile : String → Option Yaml)
    (n : Nat) : Except LaunchError (String × Yaml) :=
  (materializeContent src c readFile).map (fun y => (tempArtifactPath n, y))

namespace Tb4

/-- Embedding of `tb4_simulation_launch.py`. -/
def MAP_TYPE : String := "depot"

def bringup_dir : String := get_package_share_directory "nav2_bringup"

def launch_dir : String := path_join bringup_dir "launch"

def sim_dir : String := get_package_share_directory "nav2_minimal_tb4_sim"

def desc_dir : String := get_package_share_directory "nav2_minimal_tb4_description"

def remappings : List (String × String) := [("/tf", "tf"), ("/tf_static", "tf_static")]

def declare_namespace_cmd : Action :=
  .declareArg "namespace" "" "Top-level namespace"

def declare_slam_cmd : Action :=
  .declareArg "slam" "False" "Whether run a SLAM"

def declare_map_yaml_cmd : Action :=
  .declareArg "map" (path_join bringup_dir (path_join "maps" (MAP_TYPE ++ ".yaml")))
    "Full path to map file to load"

def declare_keepout_mask_yaml_cmd : Action :=
  .declareArg "keepout_mask"
    (path_join bringup_dir (path_join "maps" (MAP_TYPE ++ "_keepout.yaml")))
    "Full path to keepout mask file to load"

def declare_speed_mask_yaml_cmd : Action :=
  .declareArg "speed_mask"
    (path_join bringup_dir (path_join "maps" (MAP_TYPE ++ "_speed.yaml")))
    "Full path to speed mask file to load"

def declare_graph_file_cmd : Action :=
  .declareArg "graph"
    (path_join bringup_dir (path_join "graphs" (MAP_TYPE ++ "_graph.geojson"))) ""

def declare_use_sim_time_cmd : Action :=
  .declareArg "use_sim_time" "true" "Use simulation (Gazebo) clock if true"

def declare_params_file_cmd : Action :=
  .declareArg "params_file" (path_join bringup_dir (path_join "params" "nav2_params.yaml"))
    "Full path to the ROS2 parameters file to use for all launched nodes"

def declare_autostart_cmd : Action :=
  .declareArg "autostart" "true" "Automatically startup the nav2 stack"

def declare_use_composition_cmd : Action :=
  .declareArg "use_composition" "True" "Whether to use composed bringup"

def declare_use_respawn_cmd : Action :=
  .declareArg "use_respawn" "False"
    "Whether to respawn if a node crashes. Applied when composition is disabled."

def declare_use_keepout_zones_cmd : Action :=
  .declareArg "use_keepout_zones" "True" "Whether to enable keepout zones or not"

def declare_use_speed_zones_cmd : Action :=
  .declareArg "use_speed_zones" "True" "Whether to enable speed zones or not"

def declare_rviz_config_file_cmd : Action :=
  .declareArg "rviz_config_file"
    (path_join bringup_dir (path_join "rviz" "nav2_default_view.rviz"))
    "Full path to the RVIZ config file to use"

def declare_use_simulator_cmd : Action :=
  .declareArg "use_simulator" "True" "Whether to start the simulator"

def declare_use_robot_state_pub_cmd : Action :=
  .declareArg "use_robot_state_pub" "True" "Whether to start the robot state publisher"

def declare_use_rviz_cmd : Action :=
  .declareArg "use_rviz" "True" "Whether to start RVIZ"

def declare_simulator_cmd : Action :=
  .declareArg "headless" "True" "Whether to execute gzclient)"

def declare_world_cmd : Action :=
  .declareArg "world" (path_join sim_dir (path_join "worlds" (MAP_TYPE ++ ".sdf")))
    "Full path to world model file to load"

def declare_robot_name_cmd : Action :=
  .declareArg "robot_name" "nav2_turtlebot4" "name of the robot"

def declare_robot_sdf_cmd : Action :=
  .declareArg "robot_sdf"
    (path_join desc_dir (path_join "urdf" (path_join "standard" "turtlebot4.urdf.xacro")))
    "Full path to robot sdf file to spawn the robot in gazebo"

def start_robot_state_publisher_cmd : Action :=
  .node (some (.config "use_robot_state_pub"))
    { pkg := "robot_state_publisher"
      exe := "robot_state_publisher"
      name := some "robot_state_publisher"
      ns := some (.config "namespace")
      output := some "screen"
      params := [.dict
        [("use_sim_time", .pstr (.config "use_sim_time")),
         ("robot_description",
          .pcmd (.cat2 (.lit "xacro") (.cat2 (.lit " ") (.config "robot_sdf"))))]]
      remaps := remappings
      args := []
      respawn := none
      respawnDelay := none }

def rviz_cmd : Action :=
  .includeA (some (.config "use_rviz")) (path_join launch_dir "rviz_launch.py")
    [("namespace", .config "namespace"),
     ("use_sim_time", .config "use_sim_time"),
     ("rviz_config", .config "rviz_config_file")]

def bringup_cmd : Action :=
  .includeA none (path_join launch_dir "bringup_launch.py")
    [("namespace", .config "namespace"),
     ("slam", .config "slam"),
     ("map", .config "map"),
     ("keepout_mask", .config "keepout_mask"),
     ("speed_mask", .config "speed_mask"),
     ("graph", .config "graph"),
     ("use_sim_time", .config "use_sim_time"),
     ("params_file", .config "params_file"),
     ("autostart", .config "autostart"),
     ("use_composition", .config "use_composition"),
     ("use_respawn", .config "use_respawn"),
     ("use_keepout_zones", .config "use_keepout_zones"),
     ("use_speed_zones", .config "use_speed_zones")]

/-- The temporary world SDF path produced by `tempfile.mktemp`. -/
def world_sdf : String := tempfile_mktemp "nav2_" ".sdf"

/-- The xacro transform rendering the world into the temporary file. -/
def world_sdf_xacro : Action :=
  .transform none
    [.lit "xacro", .lit "-o", .lit world_sdf,
     .cat2 (.lit "headless:=") (.config "headless"), .config "world"]
    world_sdf

def gazebo_server : Action :=
  .proc (some (.config "use_simulator"))
    [.lit "gz", .lit "sim", .lit "-r", .lit "-s", .lit world_sdf]
    (some "screen")

/-- The `OnShutdown` handler deleting the temporary world SDF file. -/
def remove_temp_sdf_file : Action :=
  .onShutdownHook none (.removeFile world_sdf)

def set_env_vars_resources : Action :=
  .appendEnvVar none "GZ_SIM_RESOURCE_PATH" (path_join sim_dir "worlds")

def gazebo_client : Action :=
  .includeA (some (.andNot (.config "use_simulator") (.config "headless")))
    (path_join (get_package_share_directory "ros_gz_sim")
      (path_join "launch" "gz_sim.launch.py"))
    [("gz_args", .lit "-v4 -g ")]

def gz_robot : Action :=
  .includeA none (path_join sim_dir (path_join "launch" "spawn_tb4.launch.py"))
    [("namespace", .config "namespace"),
     ("use_simulator", .config "use_simulator"),
     ("use_sim_time", .config "use_sim_time"),
     ("robot_name", .config "robot_name"),
     ("robot_sdf", .config "robot_sdf"),
     ("x_pose", .configD "x_pose" "-8.0"),
     ("y_pose", .configD "y_pose" "0.0"),
     ("z_pose", .configD "z_pose" "0.01"),
     ("roll", .configD "roll" "0.0"),
     ("pitch", .configD "pitch" "0.0"),
     ("yaw", .configD "yaw" "0.0")]

/-- The tb4 session's action list, in `add_action` order. -/
def tb4Actions : List Action :=
  [declare_namespace_cmd,
   declare_slam_cmd,
   declare_map_yaml_cmd,
   declare_keepout_mask_yaml_cmd,
   declare_speed_mask_yaml_cmd,
   declare_graph_file_cmd,
   declare_use_sim_time_cmd,
   declare_params_file_cmd,
   declare_autostart_cmd,
   declare_use_composition_cmd,
   declare_rviz_config_file_cmd,
   declare_use_simulator_cmd,
   declare_use_robot_state_pub_cmd,
   declare_use_rviz_cmd,
   declare_simulator_cmd,
   declare_world_cmd,
   declare_robot_name_cmd,
   declare_robot_sdf_cmd,
   declare_use_respawn_cmd,
   declare_use_keepout_zones_cmd,
   declare_use_speed_zones_cmd,
   set_env_vars_resources,
   world_sdf_xacro,
   remove_temp_sdf_file,
   gz_robot,
   gazebo_server,
   gazebo_client,
   start_robot_state_publisher_cmd,
   rviz_cmd,
   bringup_cmd]

end Tb4

namespace Loopback

/-- Embedding of `tb4_loopback_simulation_launch.py`. -/
def bringup_dir : String := get_package_share_directory "nav2_bringup"

def loopback_sim_dir : String := get_package_share_directory "nav2_loopback_sim"

def launch_dir : String := path_join bringup_dir "launch"

def desc_dir : String := get_package_share_directory "nav2_minimal_tb4_description"

def remappings : List (String × String) := [("/tf", "tf"), ("/tf_static", "tf_static")]

def declare_namespace_cmd : Action :=
  .declareArg "namespace" "" "Top-level namespace"

def declare_map_yaml_cmd : Action :=
  .declareArg "map" (path_join bringup_dir (path_join "maps" "depot.yaml"))
    "Full path to map file to load"

def declare_graph_file_cmd : Action :=
  .declareArg "graph" (path_join bringup_dir (path_join "graphs" "depot_graph.geojson")) ""

def declare_params_file_cmd : Action :=
  .declareArg "params_file" (path_join bringup_dir (path_join "params" "nav2_params.yaml"))
    "Full path to the ROS2 parameters file to use for all launched nodes"

def declare_autostart_cmd : Action :=
  .declareArg "autostart" "true" "Automatically startup the nav2 stack"

def declare_use_composition_cmd : Action :=
  .declareArg "use_composition" "True" "Whether to use composed bringup"

def declare_use_respawn_cmd : Action :=
  .declareArg "use_respawn" "False"
    "Whether to respawn if a node crashes. Applied when composition is disabled."

def declare_rviz_config_file_cmd : Action :=
  .declareArg "rviz_config_file"
    (path_join bringup_dir (path_join "rviz" "nav2_default_view.rviz"))
    "Full path to the RVIZ config file to use"

def declare_use_robot_state_pub_cmd : Action :=
  .declareArg "use_robot_state_pub" "True" "Whether to start the robot state publisher"

def declare_use_rviz_cmd : Action :=
  .declareArg "use_rviz" "True" "Whether to start RVIZ"

def sdf : String :=
  path_join desc_dir (path_join "urdf" (path_join "standard" "turtlebot4.urdf.xacro"))

def start_robot_state_publisher_cmd : Action :=
  .node (some (.config "use_robot_state_pub"))
    { pkg := "robot_state_publisher"
      exe := "robot_state_publisher"
      name := some "robot_state_publisher"
      ns := some (.config "namespace")
      output := some "screen"
      params := [.dict
        [("use_sim_time", .pbool true),
         ("robot_description",
          .pcmd (.cat2 (.lit "xacro") (.cat2 (.lit " ") (.lit sdf))))]]
      remaps := remappings
      args := []
      respawn := none
      respawnDelay := none }

def rviz_cmd : Action :=
  .includeA (some (.config "use_rviz")) (path_join launch_dir "rviz_launch.py")
    [("namespace", .config "namespace"),
     ("use_sim_time", .lit "True"),
     ("rviz_config", .config "rviz_config_file")]

/-- The bringup include's argument map, with the hardcoded
`use_sim_time` and `use_localization` entries. -/
def bringup_args : List (String × Subst) :=
  [("namespace", .config "namespace"),
   ("map", .config "map"),
   ("graph", .config "graph"),
   ("use_sim_time", .lit "True"),
   ("params_file", .config "params_file"),
   ("autostart", .config "autostart"),
   ("use_composition", .config "use_composition"),
   ("use_respawn", .config "use_respawn"),
   ("use_localization", .lit "False")]

def bringup_cmd : Action :=
  .includeA none (path_join launch_dir "bringup_launch.py") bringup_args

/-- The loopback-simulation include's explicit argument map: only
`params_file` and `scan_frame_id` are forwarded. -/
def loopback_sim_args : List (String × Subst) :=
  [("params_file", .config "params_file"),
   ("scan_frame_id", .lit "rplidar_link")]

def loopback_sim_path : String :=
  path_join loopback_sim_dir "loopback_simulation.launch.py"

def loopback_sim_cmd : Action :=
  .includeA none loopback_sim_path loopback_sim_args

def static_publisher_cmd : Action :=
  .node none
    { pkg := "tf2_ros"
      exe := "static_transform_publisher"
      name := none
      ns := none
      output := none
      params := []
      remaps := []
      args := ["0.0", "0.0", "0.0", "0", "0", "0", "base_footprint", "base_link"]
      respawn := none
      respawnDelay := none }

/-- The rewritten params file: source `params_file`, root key
`namespace`, empty rewrite map, `convert_types=True`. -/
def configured_params : RewrittenYamlSrc :=
  { source_file := .config "params_file"
    root_key := .config "namespace"
    param_rewrites := []
    convert_types := true }

def map_server_node : Action :=
  .node none
    { pkg := "nav2_map_server"
      exe := "map_server"
      name := some "map_server"
      ns := none
      output := some "screen"
      params := [.file configured_params true,
                 .dict [("yaml_filename", .pstr (.config "map"))]]
      remaps := remappings
      args := []
      respawn := some (.config "use_respawn")
      respawnDelay := some "2.0" }

def lifecycle_manager_node : Action :=
  .node none
    { pkg := "nav2_lifecycle_manager"
      exe := "lifecycle_manager"
      name := some "lifecycle_manager_map_server"
      ns := none
      output := some "screen"
      params := [.file configured_params true,
                 .dict [("autostart", .pstr (.config "autostart"))],
                 .dict [("node_names", .plist ["map_server"])]]
      remaps := []
      args := []
      respawn := none
      respawnDelay := none }

/-- The children of the map-server group, in declared order. -/
def start_map_server_actions : List Action :=
  [.setParam none "use_sim_time" "True",
   map_server_node,
   lifecycle_manager_node]

def start_map_server : Action := .group none start_map_server_actions

/-- The loopback session's action list, in `add_action` order. -/
def loopbackActions : List Action :=
  [declare_namespace_cmd,
   declare_map_yaml_cmd,
   declare_graph_file_cmd,
   declare_params_file_cmd,
   declare_autostart_cmd,
   declare_use_composition_cmd,
   declare_rviz_config_file_cmd,
   declare_use_robot_state_pub_cmd,
   declare_use_rviz_cmd,
   declare_use_respawn_cmd,
   start_robot_state_publisher_cmd,
   static_publisher_cmd,
   start_map_server,
   loopback_sim_cmd,
   rviz_cmd,
   bringup_cmd]

end Loopback

/-- Is the action an argument declaration? -/
def Action.isDeclare : Action → Bool
  | .declareArg _ _ _ => true
  | _ => false

/-- Actions that never touch the shutdown-hook registry (hook
registrations and groups excluded). -/
def keepsHooks : Action → Bool
  | .onShutdownHook _ _ => false
  | .group _ _ => false
  | _ => true

/-- Actions that never create artifact files (transforms and groups
excluded). -/
def keepsFs : Action → Bool
  | .transform _ _ _ => false
  | .group _ _ => false
  | _ => true

/-- Actions that never change the launch-configuration variables.  A
group restores the whole context when it returns, so groups qualify. -/
def keepsVars : Action → Bool
  | .declareArg _ _ _ => false
  | _ => true

/-- The default value of the first declaration of an argument in an
action list. -/
def declaredDefault : List Action → String → Option String
  | [], _ => none
  | .declareArg m d _ :: rest, n => if m = n then some d else declaredDefault rest n
  | _ :: rest, n => declaredDefault rest n

/-- Key lookup in an include's (not yet resolved) argument map. -/
def argLookup : List (String × Subst) → String → Option Subst
  | [], _ => none
  | (k, s) :: rest, n => if k = n then some s else argLookup rest n

/-- Is the action a shutdown-hook registration? -/
def Action.isHookReg : Action → Bool
  | .onShutdownHook _ _ => true
  | _ => false

/-- Is the action the gazebo server process (a plain process whose
command starts with the `gz` executable)? -/
def Action.isGzServerProc : Action → Bool
  | .proc _ (Subst.lit e :: _) _ => e == "gz"
  | _ => false

/-- Is the effect a spawned process whose command starts with the `gz`
executable? -/
def Effect.isGzProcessSpawn : Effect → Bool
  | .spawnProcess (e :: _) => e == "gz"
  | _ => false

/-- Is the effect a spawned node? -/
def Effect.isSpawnNode : Effect → Bool
  | .spawnNode _ _ _ _ => true
  | _ => false

/-- Is the action a node with the given launch name? -/
def Action.nodeNameIs (nm : String) : Action → Bool
  | .node _ sp => sp.name == some nm
  | _ => false

/-- Is the action a group? -/
def Action.isGroup : Action → Bool
  | .group _ _ => true
  | _ => false

/-- Is the action an include of the given session path? -/
def Action.isIncludeOf (p : String) : Action → Bool
  | .includeA _ q _ => q == p
  | _ => false

/-- Key lookup in an inline parameter dictionary. -/
def dictLookup : List (String × PValue) → String → Option PValue
  | [], _ => none
  | (k, v) :: rest, n => if k = n then some v else dictLookup rest n

/-- Key lookup across a node's parameter entries (first dictionary
match wins; parameter files are opaque here). -/
def paramLookup : List ParamEntry → String → Option PValue
  | [], _ => none
  | .dict kvs :: rest, n =>
      match dictLookup kvs n with
      | some v => some v
      | none => paramLookup rest n
  | .file _ _ :: rest, n => paramLookup rest n

/-- The CLI override lists considered in the cleanup-hook scenarios:
no override, or an arbitrary (possibly unparseable) value for
`use_simulator`. -/
def cliOf : Option String → List (String × String)
  | none => []
  | some s => [("use_simulator", s)]

/-- The parameter entries of a node action (empty for any other
action). -/
def Action.nodeParams : Action → List ParamEntry
  | .node _ sp => sp.params
  | _ => []

theorem guardThen_skip (g : Option Subst) (st : St) (body : St × Option LaunchError)
    (h : evalGuard g st.ctx = .ok false) : guardThen g st body = (st, none) := by
  unfold guardThen
  rw [h]

theorem guardThen_run (g : Option Subst) (st : St) (body : St × Option LaunchError)
    (h : evalGuard g st.ctx = .ok true) : guardThen g st body = body := by
  unfold guardThen
  rw [h]

theorem guardThen_hooks (g : Option Subst) (st : St) (body : St × Option LaunchError)
    (hb : body.1.hooks = st.hooks) : (guardThen g st body).1.hooks = st.hooks := by
  unfold guardThen
  cases hg : evalGuard g st.ctx with
  | error e => rfl
  | ok b =>
    cases b with
    | false => rfl
    | true => exact hb

theorem guardThen_fs (g : Option Subst) (st : St) (body : St × Option LaunchError)
    (hb : body.1.fs = st.fs) : (guardThen g st body).1.fs = st.fs := by
  unfold guardThen
  cases hg : evalGuard g st.ctx with
  | error e => rfl
  | ok b =>
    cases b with
    | false => rfl
    | true => exact hb

theorem guardThen_vars (g : Option Subst) (st : St) (body : St × Option LaunchError)
    (hb : body.1.ctx.vars = st.ctx.vars) :
    (guardThen g st body).1.ctx.vars = st.ctx.vars := by
  unfold guardThen
  cases hg : evalGuard g st.ctx with
  | error e => rfl
  | ok b =>
    cases b with
    | false => rfl
    | true => exact hb

theorem resolveList_append (l1 l2 : List Action) (st : St) :
    resolveList (l1 ++ l2) st =
      (match resolveList l1 st with
       | (st', none) => resolveList l2 st'
       | (st', some e) => (st', some e)) := by
  induction l1 generalizing st with
  | nil => simp [resolveList]
  | cons a rest ih =>
    simp only [List.cons_append, resolveList]
    cases hr : resolveAction a st with
    | mk st' e =>
      cases e with
      | none => exact ih st'
      | some e' => rfl

theorem resolveAction_hooks (a : Action) (st : St) (h : keepsHooks a = true) :
    (resolveAction a st).1.hooks = st.hooks := by
  cases a with
  | declareArg n d ds =>
    simp only [resolveAction]
    apply guardThen_hooks
    split <;> rfl
  | node g sp => exact guardThen_hooks _ _ _ rfl
  | proc g cmd o =>
    simp only [resolveAction]
    apply guardThen_hooks
    cases resolveCmd cmd st.ctx <;> rfl
  | transform g cmd out =>
    simp only [resolveAction]
    apply guardThen_hooks
    cases resolveCmd cmd st.ctx <;> rfl
  | includeA g p args =>
    simp only [resolveAction]
    apply guardThen_hooks
    cases resolveArgList args st.ctx <;> rfl
  | group g acts => simp [keepsHooks] at h
  | setParam g k v => exact guardThen_hooks _ _ _ rfl
  | onShutdownHook g hk => simp [keepsHooks] at h
  | appendEnvVar g n v => exact guardThen_hooks _ _ _ rfl

theorem resolveList_hooks (l : List Action) (st : St) (h : l.all keepsHooks = true) :
    (resolveList l st).1.hooks = st.hooks := by
  induction l generalizing st with
  | nil => rfl
  | cons a rest ih =>
    simp only [List.all_cons, Bool.and_eq_true] at h
    simp only [resolveList]
    cases hr : resolveAction a st with
    | mk st' e =>
      have hh : st'.hooks = st.hooks := by
        have h2 := resolveAction_hooks a st h.1
        rw [hr] at h2
        exact h2
      cases e with
      | none => rw [ih st' h.2, hh]
      | some e' => exact hh

theorem resolveAction_fs (a : Action) (st : St) (h : keepsFs a = true) :
    (resolveAction a st).1.fs = st.fs := by
  cases a with
  | declareArg n d ds =>
    simp only [resolveAction]
    apply guardThen_fs
    split <;> rfl
  | node g sp => exact guardThen_fs _ _ _ rfl
  | proc g cmd o =>
    simp only [resolveAction]
    apply guardThen_fs
    cases resolveCmd cmd st.ctx <;> rfl
  | transform g cmd out => simp [keepsFs] at h
  | includeA g p args =>
    simp only [resolveAction]
    apply guardThen_fs
    cases resolveArgList args st.ctx <;> rfl
  | group g acts => simp [keepsFs] at h
  | setParam g k v => exact guardThen_fs _ _ _ rfl
  | onShutdownHook g hk => exact guardThen_fs _ _ _ rfl
  | appendEnvVar g n v => exact guardThen_fs _ _ _ rfl

theorem resolveList_fs (l : List Action) (st : St) (h : l.all keepsFs = true) :
    (resolveList l st).1.fs = st.fs := by
  induction l generalizing st with
  | nil => rfl
  | cons a rest ih =>
    simp only [List.all_cons, Bool.and_eq_true] at h
    simp only [resolveList]
    cases hr : resolveAction a st with
    | mk st' e =>
      have hh : st'.fs = st.fs := by
        have h2 := resolveAction_fs a st h.1
        rw [hr] at h2
        exact h2
      cases e with
      | none => rw [ih st' h.2, hh]
      | some e' => exact hh

theorem resolveAction_vars (a : Action) (st : St) (h : keepsVars a = true) :
    (resolveAction a st).1.ctx.vars = st.ctx.vars := by
  cases a with
  | declareArg n d ds => simp [keepsVars] at h
  | node g sp => exact guardThen_vars _ _ _ rfl
  | proc g cmd o =>
    simp only [resolveAction]
    apply guardThen_vars
    cases resolveCmd cmd st.ctx <;> rfl
  | transform g cmd out =>
    simp only [resolveAction]
    apply guardThen_vars
    cases resolveCmd cmd st.ctx <;> rfl
  | includeA g p args =>
    simp only [resolveAction]
    apply guardThen_vars
    cases resolveArgList args st.ctx <;> rfl
  | group g acts =>
    simp only [resolveAction]
    apply guardThen_vars
    rfl
  | setParam g k v => exact guardThen_vars _ _ _ rfl
  | onShutdownHook g hk => exact guardThen_vars _ _ _ rfl
  | appendEnvVar g n v => exact guardThen_vars _ _ _ rfl

theorem resolveList_vars (l : List Action) (st : St) (h : l.all keepsVars = true) :
    (resolveList l st).1.ctx.vars = st.ctx.vars := by
  induction l generalizing st with
  | nil => rfl
  | cons a rest ih =>
    simp only [List.all_cons, Bool.and_eq_true] at h
    simp only [resolveList]
    cases hr : resolveAction a st with
    | mk st' e =>
      have hh : st'.ctx.vars = st.ctx.vars := by
        have h2 := resolveAction_vars a st h.1
        rw [hr] at h2
        exact h2
      cases e with
      | none => rw [ih st' h.2, hh]
      | some e' => exact hh

theorem resolveAction_declare (m d ds : String) (st : St) :
    resolveAction (.declareArg m d ds) st =
      (if (List.lookup m st.ctx.vars).isNone then
        ({ st with ctx := { st.ctx with vars := (m, d) :: st.ctx.vars } }, none)
      else (st, none)) := by
  simp only [resolveAction]
  exact guardThen_run _ _ _ rfl

theorem resolveList_declares_stable (l : List Action) (st : St) (n v : String)
    (hl : l.all Action.isDeclare = true) (hn : List.lookup n st.ctx.vars = some v) :
    (resolveList l st).2 = none ∧
      List.lookup n (resolveList l st).1.ctx.vars = some v := by
  induction l generalizing st with
  | nil => exact ⟨rfl, hn⟩
  | cons a rest ih =>
    simp only [List.all_cons, Bool.and_eq_true] at hl
    cases a with
    | declareArg m d ds =>
      simp only [resolveList, resolveAction_declare]
      cases hm : List.lookup m st.ctx.vars with
      | none =>
        have hnm : (n == m) = false := by
          rcases hv : n == m with _ | _
          · rfl
          · rw [beq_iff_eq] at hv
            rw [hv, hm] at hn
            exact absurd hn (by simp)
        simp only [Option.isNone_none, if_true]
        exact ih _ hl.2 (by simp [List.lookup, hnm, hn])
      | some w =>
        simp only [Option.isNone_some, Bool.false_eq_true, if_false]
        exact ih _ hl.2 hn
    | node g sp => simp [Action.isDeclare] at hl
    | proc g cmd o => simp [Action.isDeclare] at hl
    | transform g cmd out => simp [Action.isDeclare] at hl
    | includeA g p args => simp [Action.isDeclare] at hl
    | group g acts => simp [Action.isDeclare] at hl
    | setParam g k v' => simp [Action.isDeclare] at hl
    | onShutdownHook g hk => simp [Action.isDeclare] at hl
    | appendEnvVar g nm v' => simp [Action.isDeclare] at hl

theorem resolveList_declares (l : List Action) (st : St) (n : String)
    (hl : l.all Action.isDeclare = true) (hn : List.lookup n st.ctx.vars = none) :
    (resolveList l st).2 = none ∧
      List.lookup n (resolveList l st).1.ctx.vars = declaredDefault l n := by
  induction l generalizing st with
  | nil => exact ⟨rfl, hn⟩
  | cons a rest ih =>
    simp only [List.all_cons, Bool.and_eq_true] at hl
    cases a with
    | declareArg m d ds =>
      simp only [resolveList, resolveAction_declare]
      cases hm : List.lookup m st.ctx.vars with
      | none =>
        simp only [Option.isNone_none, if_true]
        by_cases hmn : m = n
        · subst hmn
          have hst := resolveList_declares_stable rest
            { st with ctx := { st.ctx with vars := (m, d) :: st.ctx.vars } } m d hl.2
            (by simp [List.lookup])
          simp only [declaredDefault, if_pos rfl]
          exact hst
        · have hnm : (n == m) = false := by
            rcases hv : n == m with _ | _
            · rfl
            · rw [beq_iff_eq] at hv
              exact absurd hv.symm hmn
          simp only [declaredDefault, if_neg hmn]
          exact ih _ hl.2 (by simp [List.lookup, hnm, hn])
      | some w =>
        have hmn : m ≠ n := by
          intro hq
          rw [hq, hn] at hm
          exact absurd hm (by simp)
        simp only [Option.isNone_some, Bool.false_eq_true, if_false]
        simp only [declaredDefault, if_neg hmn]
        exact ih _ hl.2 hn
    | node g sp => simp [Action.isDeclare] at hl
    | proc g cmd o => simp [Action.isDeclare] at hl
    | transform g cmd out => simp [Action.isDeclare] at hl
    | includeA g p args => simp [Action.isDeclare] at hl
    | group g acts => simp [Action.isDeclare] at hl
    | setParam g k v' => simp [Action.isDeclare] at hl
    | onShutdownHook g hk => simp [Action.isDeclare] at hl
    | appendEnvVar g nm v' => simp [Action.isDeclare] at hl

theorem declaredDefault_append (l1 l2 : List Action) (n : String) :
    declaredDefault (l1 ++ l2) n =
      (match declaredDefault l1 n with
       | some d => some d
       | none => declaredDefault l2 n) := by
  induction l1 with
  | nil => simp [declaredDefault]
  | cons a rest ih =>
    cases a with
    | declareArg m d ds =>
      rw [List.cons_append]
      by_cases hmn : m = n
      · simp [declaredDefault, if_pos hmn]
      · simp only [declaredDefault, if_neg hmn]
        exact ih
    | node g sp => exact ih
    | proc g cmd o => exact ih
    | transform g cmd out => exact ih
    | includeA g p args => exact ih
    | group g acts => exact ih
    | setParam g k v' => exact ih
    | onShutdownHook g hk => exact ih
    | appendEnvVar g nm v' => exact ih

theorem declaredDefault_of_no_declare (l : List Action) (n : String)
    (h : l.all (fun a => !Action.isDeclare a) = true) :
    declaredDefault l n = none := by
  induction l with
  | nil => rfl
  | cons a rest ih =>
    simp only [List.all_cons, Bool.and_eq_true] at h
    cases a with
    | declareArg m d ds => simp [Action.isDeclare] at h
    | node g sp => exact ih h.2
    | proc g cmd o => exact ih h.2
    | transform g cmd out => exact ih h.2
    | includeA g p args => exact ih h.2
    | group g acts => exact ih h.2
    | setParam g k v' => exact ih h.2
    | onShutdownHook g hk => exact ih h.2
    | appendEnvVar g nm v' => exact ih h.2

theorem resolveArgList_keys (ps : List (String × Subst)) (c : Ctx)
    (args : List (String × String)) (h : resolveArgList ps c = .ok args) :
    args.map Prod.fst = ps.map Prod.fst := by
  induction ps generalizing args with
  | nil =>
    simp only [resolveArgList] at h
    cases h
    rfl
  | cons p rest ih =>
    obtain ⟨k, s⟩ := p
    simp only [resolveArgList] at h
    cases hx : resolve s c with
    | error e =>
      rw [hx] at h
      exact Except.noConfusion h
    | ok x =>
      rw [hx] at h
      cases hxs : resolveArgList rest c with
      | error e =>
        rw [hxs] at h
        exact Except.noConfusion h
      | ok xs =>
        rw [hxs] at h
        injection h with h2
        subst h2
        simp [ih xs hxs]

theorem resolveArgList_lit (ps : List (String × Subst)) (c : Ctx)
    (args : List (String × String)) (k v : String)
    (hk : argLookup ps k = some (.lit v)) (h : resolveArgList ps c = .ok args) :
    List.lookup k args = some v := by
  induction ps generalizing args with
  | nil => simp [argLookup] at hk
  | cons p rest ih =>
    obtain ⟨k', s⟩ := p
    simp only [resolveArgList] at h
    cases hx : resolve s c with
    | error e =>
      rw [hx] at h
      exact Except.noConfusion h
    | ok x =>
      rw [hx] at h
      cases hxs : resolveArgList rest c with
      | error e =>
        rw [hxs] at h
        exact Except.noConfusion h
      | ok xs =>
        rw [hxs] at h
        injection h with h2
        subst h2
        by_cases hkk : k' = k
        · subst hkk
          simp only [argLookup, eq_self_iff_true, if_true, Option.some.injEq] at hk
          subst hk
          simp only [resolve] at hx
          injection hx with hx2
          subst hx2
          simp [List.lookup]
        · have hne : (k == k') = false := by
            rcases hv : k == k' with _ | _
            · rfl
            · rw [beq_iff_eq] at hv
              exact absurd hv.symm hkk
          simp only [argLookup, if_neg hkk] at hk
          simp only [List.lookup, hne]
          exact ih xs hk hxs

theorem runHooks_fired (l : List Hook) (fs : List String) :
    (runHooks l fs).2.1 = l := by
  induction l generalizing fs with
  | nil => rfl
  | cons h rest ih => simp [runHooks, ih]

theorem runHook_not_mem (h : Hook) (fs : List String) (x : String) (hx : x ∉ fs) :
    x ∉ (runHook h fs).1 := by
  cases h with
  | removeFile p =>
    by_cases hp : p ∈ fs
    · simp only [runHook, if_pos hp]
      intro hmem
      exact hx (List.mem_of_mem_erase hmem)
    · simp only [runHook, if_neg hp]
      exact hx

theorem runHooks_failure_of_missing (pre post : List Hook) (fs : List String) (p : String)
    (hp : p ∉ fs) :
    1 ≤ (runHooks (pre ++ .removeFile p :: post) fs).2.2 := by
  induction pre generalizing fs with
  | nil =>
    simp only [List.nil_append, runHooks, runHook, if_neg hp]
    simp only [Bool.false_eq_true, if_false]
    omega
  | cons h rest ih =>
    simp only [List.cons_append, runHooks, List.append_eq]
    have h2 := ih (runHook h fs).1 (runHook_not_mem h fs p hp)
    omega

theorem all_take {α : Type} (p : α → Bool) (l : List α) (m : Nat) (h : l.all p = true) :
    (l.take m).all p = true := by
  rw [List.all_eq_true] at h ⊢
  exact fun x hx => h x (List.mem_of_mem_take hx)

theorem lookup_eq_none_of_not_mem_keys {β : Type} (l : List (String × β)) (k : String)
    (h : k ∉ l.map Prod.fst) : List.lookup k l = none := by
  induction l with
  | nil => rfl
  | cons p rest ih =>
    obtain ⟨k', v⟩ := p
    simp only [List.map_cons, List.mem_cons] at h
    push_neg at h
    have hne : (k == k') = false := by
      rcases hv : k == k' with _ | _
      · rfl
      · rw [beq_iff_eq] at hv
        exact absurd hv h.1
    simp [List.lookup, hne, ih h.2]

theorem resolve_start_map_server (st : St) :
    resolveAction Loopback.start_map_server st =
      ({ st with effects := st.effects ++
          [.spawnNode "nav2_map_server" "map_server" (some "map_server")
            (("use_sim_time", "True") :: st.ctx.params),
           .spawnNode "nav2_lifecycle_manager" "lifecycle_manager"
            (some "lifecycle_manager_map_server")
            (("use_sim_time", "True") :: st.ctx.params)] }, none) := by
  obtain ⟨⟨vars, params⟩, fs, hooks, effects⟩ := st
  simp [Loopback.start_map_server, Loopback.start_map_server_actions,
    Loopback.map_server_node, Loopback.lifecycle_manager_node,
    resolveAction, resolveList, guardThen, evalGuard]

/-- C7: materializing the loopback session's rewritten params file (the
`params_file` template with root key `namespace`, empty rewrite map and
`convert_types=true`) twice against the same context yields artifacts
whose structural trees are identical, whatever fresh paths the two
materializations receive. -/
theorem materialize_idempotent (c : Ctx) (readFile : String → Option Yaml) (n1 n2 : Nat) :
    (materialize Loopback.configured_params c readFile n1).map Prod.snd =
      (materialize Loopback.configured_params c readFile n2).map Prod.snd := by
  unfold materialize
  cases materializeContent Loopback.configured_params c readFile <;> rfl

theorem materialize_idempotent_witness :
    (materialize Loopback.configured_params (Ctx.mk [] []) (fun _ => none) 0).map Prod.snd =
      (materialize Loopback.configured_params (Ctx.mk [] []) (fun _ => none) 1).map Prod.snd :=
  materialize_idempotent (Ctx.mk [] []) (fun _ => none) 0 1

/-- C3: the cleanup hook registered by the tb4 session deletes the
temporary world SDF file; when that file does not exist the deletion
fails, the failure is logged, and every other registered hook — before
or after it in firing order — still runs, so the shutdown sequence
completes. -/
theorem cleanup_failure_does_not_block_shutdown (pre post : List Hook) (fs : List String)
    (hmiss : Tb4.world_sdf ∉ fs) :
    Tb4.remove_temp_sdf_file = Action.onShutdownHook none (.removeFile Tb4.world_sdf)
    ∧ (runHooks (pre ++ Hook.removeFile Tb4.world_sdf :: post) fs).2.1 =
        pre ++ Hook.removeFile Tb4.world_sdf :: post
    ∧ 1 ≤ (runHooks (pre ++ Hook.removeFile Tb4.world_sdf :: post) fs).2.2 :=
  ⟨rfl, runHooks_fired _ _, runHooks_failure_of_missing pre post fs _ hmiss⟩

theorem cleanup_failure_does_not_block_shutdown_witness :
    (Tb4.world_sdf ∉ ["b"])
    ∧ (runHooks [Hook.removeFile "a", Hook.removeFile Tb4.world_sdf, Hook.removeFile "b"]
        ["b"]).2.1 =
        [Hook.removeFile "a", Hook.removeFile Tb4.world_sdf, Hook.removeFile "b"]
    ∧ 1 ≤ (runHooks [Hook.removeFile "a", Hook.removeFile Tb4.world_sdf, Hook.removeFile "b"]
        ["b"]).2.2 :=
  ⟨by decide,
   (cleanup_failure_does_not_block_shutdown [Hook.removeFile "a"] [Hook.removeFile "b"]
      ["b"] (by decide)).2.1,
   (cleanup_failure_does_not_block_shutdown [Hook.removeFile "a"] [Hook.removeFile "b"]
      ["b"] (by decide)).2.2⟩

/-- C5: resolving the map-server group leaves the outer context
unchanged (the child context is popped after the group's children,
resolved in declared order, have been resolved), while the
`use_sim_time=True` override pushed by the group's first child is part
of the scoped parameters seen by both later siblings, the map server
and the lifecycle manager. -/
theorem map_server_group_scoped_override (st : St) :
    (resolveAction Loopback.start_map_server st).1.ctx = st.ctx
    ∧ (resolveAction Loopback.start_map_server st).2 = none
    ∧ (resolveAction Loopback.start_map_server st).1.effects =
        st.effects ++
          [.spawnNode "nav2_map_server" "map_server" (some "map_server")
            (("use_sim_time", "True") :: st.ctx.params),
           .spawnNode "nav2_lifecycle_manager" "lifecycle_manager"
            (some "lifecycle_manager_map_server")
            (("use_sim_time", "True") :: st.ctx.params)]
    ∧ List.lookup "use_sim_time" (("use_sim_time", "True") :: st.ctx.params) = some "True" := by
  rw [resolve_start_map_server st]
  exact ⟨rfl, rfl, rfl, rfl⟩

theorem map_server_group_scoped_override_witness :
    (resolveAction Loopback.start_map_server (initSt [])).1.ctx = (initSt []).ctx
    ∧ (resolveAction Loopback.start_map_server (initSt [])).2 = none
    ∧ (resolveAction Loopback.start_map_server (initSt [])).1.effects =
        (initSt []).effects ++
          [.spawnNode "nav2_map_server" "map_server" (some "map_server")
            (("use_sim_time", "True") :: (initSt []).ctx.params),
           .spawnNode "nav2_lifecycle_manager" "lifecycle_manager"
            (some "lifecycle_manager_map_server")
            (("use_sim_time", "True") :: (initSt []).ctx.params)]
    ∧ List.lookup "use_sim_time" (("use_sim_time", "True") :: (initSt []).ctx.params) =
        some "True" :=
  map_server_group_scoped_override (initSt [])

/-- C6: in the loopback session the lifecycle manager is declared after
the map server inside the group, its `node_names` parameter is exactly
`[map_server]`, the group precedes both the loopback-simulation include
and the bringup include in the session's action list, and resolving the
group provides only node spawns — no blocking wait of any kind. -/
theorem lifecycle_manager_ordering :
    List.findIdx (Action.nodeNameIs "map_server") Loopback.start_map_server_actions <
      List.findIdx (Action.nodeNameIs "lifecycle_manager_map_server")
        Loopback.start_map_server_actions
    ∧ paramLookup (Action.nodeParams Loopback.lifecycle_manager_node) "node_names" =
        some (.plist ["map_server"])
    ∧ List.findIdx Action.isGroup Loopback.loopbackActions <
        List.findIdx (Action.isIncludeOf Loopback.loopback_sim_path) Loopback.loopbackActions
    ∧ List.findIdx Action.isGroup Loopback.loopbackActions <
        List.findIdx (Action.isIncludeOf (path_join Loopback.launch_dir "bringup_launch.py"))
          Loopback.loopbackActions
    ∧ (∀ st : St, (((resolveAction Loopback.start_map_server st).1.effects.drop
        st.effects.length).all Effect.isSpawnNode) = true) := by
  refine ⟨by decide, by decide, by decide, by decide, ?_⟩
  intro st
  rw [resolve_start_map_server st]
  rw [List.drop_left]
  rfl

/-- C4: the loopback-simulation include forwards exactly the argument
map with keys `params_file` and `scan_frame_id`; the child's seeded
argument map depends only on the parent's `params_file` binding, so two
parent contexts that agree on `params_file` (and may differ on
`namespace` or any other unmapped variable) seed the child identically,
and the seeded map never contains a `namespace` entry. -/
theorem loopback_include_no_context_leak :
    Loopback.loopback_sim_cmd =
      Action.includeA none Loopback.loopback_sim_path Loopback.loopback_sim_args
    ∧ List.map Prod.fst Loopback.loopback_sim_args = ["params_file", "scan_frame_id"]
    ∧ (∀ c1 c2 : Ctx,
        List.lookup "params_file" c1.vars = List.lookup "params_file" c2.vars →
        resolveArgList Loopback.loopback_sim_args c1 =
          resolveArgList Loopback.loopback_sim_args c2)
    ∧ (∀ (c : Ctx) (args : List (String × String)),
        resolveArgList Loopback.loopback_sim_args c = .ok args →
        List.map Prod.fst args = ["params_file", "scan_frame_id"]
        ∧ List.lookup "namespace" args = none) := by
  refine ⟨rfl, rfl, ?_, ?_⟩
  · intro c1 c2 h
    simp only [Loopback.loopback_sim_args, resolveArgList, resolve]
    rw [h]
  · intro c args h
    have hkeys := resolveArgList_keys _ _ _ h
    refine ⟨hkeys, lookup_eq_none_of_not_mem_keys args "namespace" ?_⟩
    rw [hkeys]
    decide

theorem loopback_include_no_context_leak_witness :
    (List.lookup "params_file" (Ctx.mk [("params_file", "p.yaml"), ("namespace", "a")] []).vars
      = List.lookup "params_file" (Ctx.mk [("params_file", "p.yaml"), ("namespace", "b")] []).vars)
    ∧ resolveArgList Loopback.loopback_sim_args
        (Ctx.mk [("params_file", "p.yaml"), ("namespace", "a")] []) =
      resolveArgList Loopback.loopback_sim_args
        (Ctx.mk [("params_file", "p.yaml"), ("namespace", "b")] [])
    ∧ (resolveArgList Loopback.loopback_sim_args
        (Ctx.mk [("params_file", "p.yaml"), ("namespace", "a")] []) =
        .ok [("params_file", "p.yaml"), ("scan_frame_id", "rplidar_link")])
    ∧ List.lookup "namespace" [("params_file", "p.yaml"), ("scan_frame_id", "rplidar_link")]
        = none :=
  ⟨rfl,
   loopback_include_no_context_leak.2.2.1 _ _ rfl,
   rfl,
   (loopback_include_no_context_leak.2.2.2
      (Ctx.mk [("params_file", "p.yaml"), ("namespace", "a")] [])
      [("params_file", "p.yaml"), ("scan_frame_id", "rplidar_link")] rfl).2⟩

/-- C10: in the loopback session, the robot state publisher's
`use_sim_time` parameter is the hardcoded boolean true, the bringup
include receives the literal arguments `use_sim_time=True` and
`use_localization=False`, the map-server group's first child is the
`use_sim_time=True` override, neither `use_sim_time` nor
`use_localization` is a declared CLI argument of the session, and the
literal bringup arguments resolve to the same values under every
context. -/
theorem loopback_hardcoded_use_sim_time :
    paramLookup (Action.nodeParams Loopback.start_robot_state_publisher_cmd) "use_sim_time"
      = some (.pbool true)
    ∧ argLookup Loopback.bringup_args "use_sim_time" = some (.lit "True")
    ∧ argLookup Loopback.bringup_args "use_localization" = some (.lit "False")
    ∧ List.take 1 Loopback.start_map_server_actions = [.setParam none "use_sim_time" "True"]
    ∧ declaredDefault Loopback.loopbackActions "use_sim_time" = none
    ∧ declaredDefault Loopback.loopbackActions "use_localization" = none
    ∧ (∀ (c : Ctx) (args : List (String × String)),
        resolveArgList Loopback.bringup_args c = .ok args →
        List.lookup "use_sim_time" args = some "True"
        ∧ List.lookup "use_localization" args = some "False") := by
  refine ⟨rfl, rfl, rfl, rfl, by decide, by decide, ?_⟩
  intro c args h
  exact ⟨resolveArgList_lit _ _ _ _ _ (by decide) h,
         resolveArgList_lit _ _ _ _ _ (by decide) h⟩

theorem loopback_hardcoded_use_sim_time_witness :
    (resolveArgList Loopback.bringup_args
      (Ctx.mk [("namespace", ""), ("map", "m"), ("graph", "g"), ("params_file", "p"),
               ("autostart", "true"), ("use_composition", "True"), ("use_respawn", "False")] [])
      = .ok [("namespace", ""), ("map", "m"), ("graph", "g"), ("use_sim_time", "True"),
             ("params_file", "p"), ("autostart", "true"), ("use_composition", "True"),
             ("use_respawn", "False"), ("use_localization", "False")])
    ∧ List.lookup "use_sim_time"
        [("namespace", ""), ("map", "m"), ("graph", "g"), ("use_sim_time", "True"),
         ("params_file", "p"), ("autostart", "true"), ("use_composition", "True"),
         ("use_respawn", "False"), ("use_localization", "False")] = some "True"
    ∧ List.lookup "use_localization"
        [("namespace", ""), ("map", "m"), ("graph", "g"), ("use_sim_time", "True"),
         ("params_file", "p"), ("autostart", "true"), ("use_composition", "True"),
         ("use_respawn", "False"), ("use_localization", "False")] = some "False" :=
  ⟨rfl,
   (loopback_hardcoded_use_sim_time.2.2.2.2.2.2
      (Ctx.mk [("namespace", ""), ("map", "m"), ("graph", "g"), ("params_file", "p"),
               ("autostart", "true"), ("use_composition", "True"), ("use_respawn", "False")] [])
      [("namespace", ""), ("map", "m"), ("graph", "g"), ("use_sim_time", "True"),
       ("params_file", "p"), ("autostart", "true"), ("use_composition", "True"),
       ("use_respawn", "False"), ("use_localization", "False")] rfl).1,
   (loopback_hardcoded_use_sim_time.2.2.2.2.2.2
      (Ctx.mk [("namespace", ""), ("map", "m"), ("graph", "g"), ("params_file", "p"),
               ("autostart", "true"), ("use_composition", "True"), ("use_respawn", "False")] [])
      [("namespace", ""), ("map", "m"), ("graph", "g"), ("use_sim_time", "True"),
       ("params_file", "p"), ("autostart", "true"), ("use_composition", "True"),
       ("use_respawn", "False"), ("use_localization", "False")] rfl).2⟩

/-- C2: every guarded action node of the tb4 session — the gazebo
server guarded by `use_simulator`, the gazebo client guarded by
`use_simulator and not headless`, rviz guarded by `use_rviz`, the robot
state publisher guarded by `use_robot_state_pub` — resolves to the
unchanged state when its guard evaluates to false: no process is
spawned, no artifact file is created, no effect is produced. -/
theorem guarded_nodes_skip_when_false :
    Tb4.gazebo_server.guard = some (.config "use_simulator")
    ∧ Tb4.gazebo_client.guard =
        some (.andNot (.config "use_simulator") (.config "headless"))
    ∧ Tb4.rviz_cmd.guard = some (.config "use_rviz")
    ∧ Tb4.start_robot_state_publisher_cmd.guard = some (.config "use_robot_state_pub")
    ∧ (∀ st : St, evalGuard Tb4.gazebo_server.guard st.ctx = .ok false →
        resolveAction Tb4.gazebo_server st = (st, none))
    ∧ (∀ st : St, evalGuard Tb4.gazebo_client.guard st.ctx = .ok false →
        resolveAction Tb4.gazebo_client st = (st, none))
    ∧ (∀ st : St, evalGuard Tb4.rviz_cmd.guard st.ctx = .ok false →
        resolveAction Tb4.rviz_cmd st = (st, none))
    ∧ (∀ st : St, evalGuard Tb4.start_robot_state_publisher_cmd.guard st.ctx = .ok false →
        resolveAction Tb4.start_robot_state_publisher_cmd st = (st, none)) := by
  refine ⟨rfl, rfl, rfl, rfl, ?_, ?_, ?_, ?_⟩ <;>
    intro st h <;>
    exact guardThen_skip _ _ _ h

theorem guarded_nodes_skip_when_false_witness :
    (evalGuard Tb4.gazebo_server.guard
      (initSt [("use_simulator", "False"), ("headless", "True"),
               ("use_rviz", "False"), ("use_robot_state_pub", "False")]).ctx = .ok false)
    ∧ resolveAction Tb4.gazebo_server
        (initSt [("use_simulator", "False"), ("headless", "True"),
                 ("use_rviz", "False"), ("use_robot_state_pub", "False")]) =
        (initSt [("use_simulator", "False"), ("headless", "True"),
                 ("use_rviz", "False"), ("use_robot_state_pub", "False")], none)
    ∧ resolveAction Tb4.gazebo_client
        (initSt [("use_simulator", "False"), ("headless", "True"),
                 ("use_rviz", "False"), ("use_robot_state_pub", "False")]) =
        (initSt [("use_simulator", "False"), ("headless", "True"),
                 ("use_rviz", "False"), ("use_robot_state_pub", "False")], none)
    ∧ resolveAction Tb4.rviz_cmd
        (initSt [("use_simulator", "False"), ("headless", "True"),
                 ("use_rviz", "False"), ("use_robot_state_pub", "False")]) =
        (initSt [("use_simulator", "False"), ("headless", "True"),
                 ("use_rviz", "False"), ("use_robot_state_pub", "False")], none)
    ∧ resolveAction Tb4.start_robot_state_publisher_cmd
        (initSt [("use_simulator", "False"), ("headless", "True"),
                 ("use_rviz", "False"), ("use_robot_state_pub", "False")]) =
        (initSt [("use_simulator", "False"), ("headless", "True"),
                 ("use_rviz", "False"), ("use_robot_state_pub", "False")], none) :=
  ⟨rfl,
   guarded_nodes_skip_when_false.2.2.2.2.1 _ rfl,
   guarded_nodes_skip_when_false.2.2.2.2.2.1 _ rfl,
   guarded_nodes_skip_when_false.2.2.2.2.2.2.1 _ rfl,
   guarded_nodes_skip_when_false.2.2.2.2.2.2.2 _ rfl⟩

set_option maxHeartbeats 1000000 in
/-- C9: the world xacro transform and the cleanup-hook registration
carry no guard; whatever the context binds `headless` and `world` to,
resolving the transform spawns the external xacro process and creates
the temporary world SDF artifact file; and in a full session run with
`use_simulator=False` the artifact is still created even though no
gazebo process is spawned. -/
theorem world_transform_unconditional :
    Tb4.world_sdf_xacro.guard = none
    ∧ Tb4.remove_temp_sdf_file.guard = none
    ∧ (∀ (st : St) (h w : String),
        List.lookup "headless" st.ctx.vars = some h →
        List.lookup "world" st.ctx.vars = some w →
        resolveAction Tb4.world_sdf_xacro st =
          ({ st with
              effects := st.effects ++
                [.spawnProcess ["xacro", "-o", Tb4.world_sdf, "headless:=" ++ h, w],
                 .createFile Tb4.world_sdf],
              fs := st.fs ++ [Tb4.world_sdf] }, none))
    ∧ Effect.createFile Tb4.world_sdf ∈
        (runSession Tb4.tb4Actions [("use_simulator", "False")] .normal).effects
    ∧ (runSession Tb4.tb4Actions [("use_simulator", "False")] .normal).effects.countP
        Effect.isGzProcessSpawn = 0 := by
  refine ⟨rfl, rfl, ?_, ?_, ?_⟩
  · intro st h w hh hw
    obtain ⟨⟨vars, params⟩, fs, hooks, effects⟩ := st
    simp only [Ctx.mk.injEq] at hh hw ⊢
    simp [Tb4.world_sdf_xacro, resolveAction, guardThen, evalGuard, resolveCmd, resolve,
      hh, hw]
  all_goals
    simp [Tb4.tb4Actions, Tb4.declare_namespace_cmd, Tb4.declare_slam_cmd,
      Tb4.declare_map_yaml_cmd, Tb4.declare_keepout_mask_yaml_cmd,
      Tb4.declare_speed_mask_yaml_cmd, Tb4.declare_graph_file_cmd,
      Tb4.declare_use_sim_time_cmd, Tb4.declare_params_file_cmd,
      Tb4.declare_autostart_cmd, Tb4.declare_use_composition_cmd,
      Tb4.declare_rviz_config_file_cmd, Tb4.declare_use_simulator_cmd,
      Tb4.declare_use_robot_state_pub_cmd, Tb4.declare_use_rviz_cmd,
      Tb4.declare_simulator_cmd, Tb4.declare_world_cmd, Tb4.declare_robot_name_cmd,
      Tb4.declare_robot_sdf_cmd, Tb4.declare_use_respawn_cmd,
      Tb4.declare_use_keepout_zones_cmd, Tb4.declare_use_speed_zones_cmd,
      Tb4.set_env_vars_resources, Tb4.world_sdf_xacro, Tb4.remove_temp_sdf_file,
      Tb4.gz_robot, Tb4.gazebo_server, Tb4.gazebo_client,
      Tb4.start_robot_state_publisher_cmd, Tb4.rviz_cmd, Tb4.bringup_cmd,
      resolveList, resolveAction, guardThen, evalGuard, resolve, resolveCmd,
      resolveArgList, initSt, List.lookup, parseBoolText, pyBoolStr,
      runSession, sessionActs, Effect.isGzProcessSpawn,
      List.countP_cons, List.countP_nil]

theorem world_transform_unconditional_witness :
    (List.lookup "headless"
      (St.mk (Ctx.mk [("headless", "False"), ("world", "w.sdf")] []) [] [] []).ctx.vars
      = some "False")
    ∧ (List.lookup "world"
      (St.mk (Ctx.mk [("headless", "False"), ("world", "w.sdf")] []) [] [] []).ctx.vars
      = some "w.sdf")
    ∧ resolveAction Tb4.world_sdf_xacro
        (St.mk (Ctx.mk [("headless", "False"), ("world", "w.sdf")] []) [] [] []) =
        (St.mk (Ctx.mk [("headless", "False"), ("world", "w.sdf")] []) [Tb4.world_sdf] []
          [.spawnProcess ["xacro", "-o", Tb4.world_sdf, "headless:=" ++ "False", "w.sdf"],
           .createFile Tb4.world_sdf], none) :=
  ⟨rfl, rfl,
   world_transform_unconditional.2.2.1
     (St.mk (Ctx.mk [("headless", "False"), ("world", "w.sdf")] []) [] [] [])
     "False" "w.sdf" rfl rfl⟩

theorem session_arg_fallback (decls rest : List Action) (cli : List (String × String))
    (n : String)
    (hdecl : decls.all Action.isDeclare = true)
    (hrest : rest.all keepsVars = true)
    (hnd : rest.all (fun a => !Action.isDeclare a) = true)
    (hcli : List.lookup n cli = none) :
    List.lookup n (resolveList (decls ++ rest) (initSt cli)).1.ctx.vars =
      declaredDefault (decls ++ rest) n := by
  rw [resolveList_append]
  obtain ⟨he, hl⟩ := resolveList_declares decls (initSt cli) n hdecl hcli
  cases hr : resolveList decls (initSt cli) with
  | mk st' e =>
    rw [hr] at he hl
    cases e with
    | some e' => exact absurd he (by simp)
    | none =>
      rw [declaredDefault_append, declaredDefault_of_no_declare rest n hnd]
      have hv := resolveList_vars rest st' hrest
      simp only []
      rw [hv, hl]
      cases declaredDefault decls n <;> rfl

/-- C8: in both sessions, an argument not overridden on the CLI
resolves to its declared default: for every CLI override list and every
argument name unset there, the post-resolution binding equals the first
declared default of that name; in particular the `map` argument
defaults to the depot.yaml path under the bringup share directory,
which is not the empty value. -/
theorem argument_default_fallback :
    (∀ (cli : List (String × String)) (n : String),
        List.lookup n cli = none →
        List.lookup n (resolveList Tb4.tb4Actions (initSt cli)).1.ctx.vars =
          declaredDefault Tb4.tb4Actions n)
    ∧ (∀ (cli : List (String × String)) (n : String),
        List.lookup n cli = none →
        List.lookup n (resolveList Loopback.loopbackActions (initSt cli)).1.ctx.vars =
          declaredDefault Loopback.loopbackActions n)
    ∧ declaredDefault Tb4.tb4Actions "map" =
        some (path_join Tb4.bringup_dir (path_join "maps" "depot.yaml"))
    ∧ declaredDefault Loopback.loopbackActions "map" =
        some (path_join Loopback.bringup_dir (path_join "maps" "depot.yaml"))
    ∧ path_join Tb4.bringup_dir (path_join "maps" "depot.yaml") ≠ "" := by
  refine ⟨?_, ?_, by decide, by decide, by decide⟩
  · intro cli n hcli
    have h := session_arg_fallback (Tb4.tb4Actions.take 21) (Tb4.tb4Actions.drop 21) cli n
      (by decide) (by decide) (by decide) hcli
    rw [List.take_append_drop] at h
    exact h
  · intro cli n hcli
    have h := session_arg_fallback (Loopback.loopbackActions.take 10)
      (Loopback.loopbackActions.drop 10) cli n (by decide) (by decide) (by decide) hcli
    rw [List.take_append_drop] at h
    exact h

theorem argument_default_fallback_witness :
    (List.lookup "map" ([] : List (String × String)) = none)
    ∧ List.lookup "map" (resolveList Tb4.tb4Actions (initSt [])).1.ctx.vars =
        declaredDefault Tb4.tb4Actions "map"
    ∧ List.lookup "map" (resolveList Loopback.loopbackActions (initSt [])).1.ctx.vars =
        declaredDefault Loopback.loopbackActions "map" :=
  ⟨rfl, argument_default_fallback.1 [] "map" rfl,
   argument_default_fallback.2.1 [] "map" rfl⟩

set_option maxHeartbeats 1000000 in
theorem tb4_prefix_facts (v : Option String) :
    (resolveList (Tb4.tb4Actions.take 24) (initSt (cliOf v))).2 = none
    ∧ (resolveList (Tb4.tb4Actions.take 24) (initSt (cliOf v))).1.hooks =
        [Hook.removeFile Tb4.world_sdf]
    ∧ (resolveList (Tb4.tb4Actions.take 24) (initSt (cliOf v))).1.fs = [Tb4.world_sdf] := by
  cases v <;>
    refine ⟨?_, ?_, ?_⟩ <;>
    simp [Tb4.tb4Actions, Tb4.declare_namespace_cmd, Tb4.declare_slam_cmd,
      Tb4.declare_map_yaml_cmd, Tb4.declare_keepout_mask_yaml_cmd,
      Tb4.declare_speed_mask_yaml_cmd, Tb4.declare_graph_file_cmd,
      Tb4.declare_use_sim_time_cmd, Tb4.declare_params_file_cmd,
      Tb4.declare_autostart_cmd, Tb4.declare_use_composition_cmd,
      Tb4.declare_rviz_config_file_cmd, Tb4.declare_use_simulator_cmd,
      Tb4.declare_use_robot_state_pub_cmd, Tb4.declare_use_rviz_cmd,
      Tb4.declare_simulator_cmd, Tb4.declare_world_cmd, Tb4.declare_robot_name_cmd,
      Tb4.declare_robot_sdf_cmd, Tb4.declare_use_respawn_cmd,
      Tb4.declare_use_keepout_zones_cmd, Tb4.declare_use_speed_zones_cmd,
      Tb4.set_env_vars_resources, Tb4.world_sdf_xacro, Tb4.remove_temp_sdf_file,
      Tb4.gz_robot, Tb4.gazebo_server, Tb4.gazebo_client,
      Tb4.start_robot_state_publisher_cmd, Tb4.rviz_cmd, Tb4.bringup_cmd,
      resolveList, resolveAction, guardThen, evalGuard, resolve, resolveCmd,
      resolveArgList, initSt, cliOf, List.lookup, parseBoolText]

theorem tb4_run_facts (v : Option String) (acts2 : List Action)
    (h2h : acts2.all keepsHooks = true) (h2f : acts2.all keepsFs = true) :
    (resolveList (Tb4.tb4Actions.take 24 ++ acts2) (initSt (cliOf v))).1.hooks =
      [Hook.removeFile Tb4.world_sdf]
    ∧ (resolveList (Tb4.tb4Actions.take 24 ++ acts2) (initSt (cliOf v))).1.fs =
      [Tb4.world_sdf] := by
  rw [resolveList_append]
  obtain ⟨he, hh, hf⟩ := tb4_prefix_facts v
  cases hr : resolveList (Tb4.tb4Actions.take 24) (initSt (cliOf v)) with
  | mk st' e =>
    rw [hr] at he hh hf
    cases e with
    | some e' => exact absurd he (by simp)
    | none =>
      exact ⟨by rw [resolveList_hooks acts2 st' h2h]; exact hh,
             by rw [resolveList_fs acts2 st' h2f]; exact hf⟩

theorem runSession_single_hook (acts : List Action) (cli : List (String × String))
    (t : Termination) (p : String)
    (hh : (resolveList (sessionActs acts t) (initSt cli)).1.hooks = [Hook.removeFile p])
    (hf : (resolveList (sessionActs acts t) (initSt cli)).1.fs = [p]) :
    (runSession acts cli t).fired = [Hook.removeFile p]
    ∧ (runSession acts cli t).fs = [] := by
  simp only [runSession]
  rw [hh, hf]
  simp [runHooks, runHook, List.erase_cons_head]

/-- C1: in the tb4 session the cleanup hook deleting the temporary
world SDF file is registered before the gazebo server (the transform's
consuming process) in the action list, and on every termination path
that reaches the registration — normal completion, an external
interrupt after at least 24 actions, or the resolution-error abort that
an unparseable `use_simulator` override triggers at the gazebo server's
guard — the hook fires exactly once and the artifact file no longer
exists afterwards. -/
theorem tb4_cleanup_hook_fires_exactly_once (v : Option String) (t : Termination)
    (hreg : t = Termination.normal ∨ ∃ k, t = Termination.interrupted k ∧ 24 ≤ k) :
    List.findIdx Action.isHookReg Tb4.tb4Actions <
      List.findIdx Action.isGzServerProc Tb4.tb4Actions
    ∧ (runSession Tb4.tb4Actions (cliOf v) t).fired.count (Hook.removeFile Tb4.world_sdf) = 1
    ∧ Tb4.world_sdf ∉ (runSession Tb4.tb4Actions (cliOf v) t).fs := by
  have key : (resolveList (sessionActs Tb4.tb4Actions t) (initSt (cliOf v))).1.hooks =
        [Hook.removeFile Tb4.world_sdf]
      ∧ (resolveList (sessionActs Tb4.tb4Actions t) (initSt (cliOf v))).1.fs =
        [Tb4.world_sdf] := by
    rcases hreg with hnorm | ⟨k, hk, hge⟩
    · subst hnorm
      have hsplit : sessionActs Tb4.tb4Actions Termination.normal =
          Tb4.tb4Actions.take 24 ++ Tb4.tb4Actions.drop 24 := by
        show Tb4.tb4Actions = _
        exact (List.take_append_drop 24 _).symm
      rw [hsplit]
      exact tb4_run_facts v _ (by decide) (by decide)
    · subst hk
      have hsplit : sessionActs Tb4.tb4Actions (Termination.interrupted k) =
          Tb4.tb4Actions.take 24 ++ (Tb4.tb4Actions.drop 24).take (k - 24) := by
        show Tb4.tb4Actions.take k = _
        rw [← List.take_add]
        congr 1
        omega
      rw [hsplit]
      exact tb4_run_facts v _ (all_take _ _ _ (by decide)) (all_take _ _ _ (by decide))
  obtain ⟨hfired, hfs⟩ :=
    runSession_single_hook Tb4.tb4Actions (cliOf v) t Tb4.world_sdf key.1 key.2
  refine ⟨by decide, ?_, ?_⟩
  · rw [hfired]
    rfl
  · rw [hfs]
    simp

theorem tb4_cleanup_hook_fires_exactly_once_witness :
    ((Termination.interrupted 24 = Termination.normal ∨
        ∃ k, Termination.interrupted 24 = Termination.interrupted k ∧ 24 ≤ k)
    ∧ (runSession Tb4.tb4Actions (cliOf none) (Termination.interrupted 24)).fired.count
        (Hook.removeFile Tb4.world_sdf) = 1
    ∧ Tb4.world_sdf ∉ (runSession Tb4.tb4Actions (cliOf none) (Termination.interrupted 24)).fs) :=
  ⟨Or.inr ⟨24, rfl, by omega⟩,
   (tb4_cleanup_hook_fires_exactly_once none (Termination.interrupted 24)
      (Or.inr ⟨24, rfl, by omega⟩)).2.1,
   (tb4_cleanup_hook_fires_exactly_once none (Termination.interrupted 24)
      (Or.inr ⟨24, rfl, by omega⟩)).2.2⟩

end NavLaunch

